import Mathlib

/-!
# Verification of the parity-client gateway core

Shallow embedding of the request dispatcher, task ingestion, background
Docker-image packaging/upload pipeline, reverse proxy and health handlers
of the parity-client repository
(`internal/handlers/{proxy,health}.go`, `internal/types/http.go`, the
router/task-handler/docker-service sources), together with proofs of the
spec's testable properties.

Modelling conventions:
- Go strings are Lean `String`s; byte-level operations are modelled on the
  character list (all constants involved are ASCII).
- External effects (docker commands, filesystem, outbound HTTP) are driven
  by an `Env` oracle that fixes the outcome of each fallible call, and the
  handler functions return the ordered trace of observable events they
  perform.  A goroutine spawned with `go f(...)` contributes its events
  after the spawn point, reflecting Go's happens-before edge from the `go`
  statement to the start of the goroutine.
- Response writes to the caller's `http.ResponseWriter` are modelled as
  always succeeding (their only failure mode is the caller's connection
  dying mid-write), and `http.NewRequest` is modelled as succeeding (the
  Go server only delivers syntactically valid methods/paths to handlers).
- Header names are represented in their canonical form (Go's `net/http`
  canonicalises names identically on the inbound map, `Header.Set` and
  `Header.Add`, so canonicalisation is the identity on this model).
-/

namespace ParityClient

/-! ## Go string primitives -/

/-- Character-list core of Go's `strings.HasPrefix`. -/
def listHasPre : List Char → List Char → Bool
  | _, [] => true
  | [], _ :: _ => false
  | a :: s, b :: p => a == b && listHasPre s p

/-- Character-list core of Go's `strings.Contains`. -/
def listContainsSub : List Char → List Char → Bool
  | [], pat => pat.isEmpty
  | a :: s, pat => listHasPre (a :: s) pat || listContainsSub s pat

/-- Go `strings.Contains(s, pat)`. -/
def goContains (s pat : String) : Bool := listContainsSub s.data pat.data

/-- Go `strings.HasPrefix(s, pre)`. -/
def goHasPre (s pre : String) : Bool := listHasPre s.data pre.data

/-- Go `strings.TrimPrefix(s, pre)`: drops `pre` once if it leads `s`. -/
def goTrimPre (s pre : String) : String :=
  if goHasPre s pre then ⟨s.data.drop pre.data.length⟩ else s

/-- Go `strings.HasSuffix(s, suf)`. -/
def goHasSuf (s suf : String) : Bool := listHasPre s.data.reverse suf.data.reverse

/-- Go `strings.TrimSuffix(s, suf)`: drops `suf` once if it ends `s`. -/
def goTrimSuf (s suf : String) : String :=
  if goHasSuf s suf then ⟨s.data.take (s.data.length - suf.data.length)⟩ else s

/-- Go `strings.ReplaceAll(s, "/", "_")` (single-character pattern and
replacement, so it is the character map). -/
def replaceSlashUnderscore (s : String) : String :=
  ⟨s.data.map (fun c => if c = '/' then '_' else c)⟩

/-! ## JSON encoding of the structured error body

`types.WriteError` marshals `types.HTTPError{Status, Message}` with
`encoding/json`, which emits the struct fields in declaration order under
their tags `status`, `message`, HTML-escapes `<`, `>`, `&`, and appends a
newline (`json.Encoder.Encode`). -/

/-- Lower-case hex digit, as emitted by `encoding/json` for `\u00XX`. -/
def hexDigitChar (n : Nat) : Char :=
  if n < 10 then Char.ofNat (48 + n) else Char.ofNat (87 + n)

/-- Escape one character the way `encoding/json` does inside a string
(default encoder, HTML escaping on). -/
def jsonEscapeChar (c : Char) : String :=
  if c = '"' then "\\\""
  else if c = '\\' then "\\\\"
  else if c = '\n' then "\\n"
  else if c = '\r' then "\\r"
  else if c = '\t' then "\\t"
  else if c = '<' then "\\u003c"
  else if c = '>' then "\\u003e"
  else if c = '&' then "\\u0026"
  else if c.toNat < 32 then
    "\\u00" ++ String.mk [hexDigitChar (c.toNat / 16), hexDigitChar (c.toNat % 16)]
  else String.mk [c]

/-- `encoding/json` string escaping. -/
def jsonEscape (s : String) : String := String.join (s.data.map jsonEscapeChar)

/-- Wire bytes of `types.WriteError`'s body: the `encoding/json` encoding of
`types.HTTPError{Status: status, Message: msg}` plus the encoder's
trailing newline. -/
def encodeHTTPError (status : Nat) (msg : String) : String :=
  "\x7b\"status\":" ++ toString status ++ ",\"message\":\"" ++ jsonEscape msg ++ "\"\x7d\n"

/-! ## Data model -/

/-- `task.Request` (`internal/task/types.go`): the decoded JSON body of a
task-creation request. -/
structure TaskRequest where
  title : String
  description : String
  image : String
  command : List String
deriving DecidableEq

/-- The `taskData` map built by `TaskHandler.ValidateAndProcessTask`:
the request fields plus the gateway's resolved identity. -/
structure TaskData where
  title : String
  description : String
  image : String
  command : List String
  device_id : String
  creator_address : String
deriving DecidableEq

/-- The gateway's resolved identity (`deviceID`, `creatorAddr` fields of the
router/handlers, fixed at startup). -/
structure Identity where
  deviceID : String
  creatorAddr : String
deriving DecidableEq

/-- The slice of `config.Config` the gateway core reads. -/
structure Config where
  runnerServerURL : String
  blockchainRPC : String
  ipfsEndpoint : String
deriving DecidableEq

/-- Body of `handlers.HealthStatus` as far as it is data-dependent
(`status` and the `services` map; `timestamp`/`version`/`uptime` are
clock/build values outside the model). -/
structure HealthStatusBody where
  status : String
  services : List (String × String)
deriving DecidableEq

/-- A response body handed to the caller. -/
inductive RespBody where
  /-- `taskData` written with 202 by `ValidateAndProcessTask`. -/
  | taskAck (td : TaskData)
  /-- `types.HTTPError` written by `types.WriteError`. -/
  | errJSON (status : Nat) (message : String)
  /-- `handlers.HealthStatus` body. -/
  | healthJSON (h : HealthStatusBody)
  /-- `handlers.DetailedHealthStatus` body: overall plus per-service status. -/
  | detailedJSON (overall blockchain ipfs runner : String)
  /-- an upstream body streamed back unchanged by the proxy. -/
  | upstream
deriving DecidableEq

/-- A response written to the caller: status code and body. -/
structure Response where
  status : Nat
  body : RespBody
deriving DecidableEq

/-- Observable events of the gateway, in program order. -/
inductive Event where
  /-- a response (status + body) written to the caller. -/
  | respWrite (r : Response)
  /-- the `go h.processDockerImage(...)` statement. -/
  | spawnPipeline (image : String)
  /-- `docker image inspect`. -/
  | imageInspect (image : String)
  /-- `docker pull`. -/
  | imagePull (image : String)
  /-- `os.MkdirTemp` succeeded, yielding `dir`. -/
  | mkdirTemp (dir : String)
  /-- `docker save -o tarFile image` ran, with `tarFile` inside `dir`. -/
  | dockerSave (image dir tarFile : String)
  /-- `os.RemoveAll dir`. -/
  | fsRemoveAll (dir : String)
  /-- `os.ReadFile file`. -/
  | fsRead (file : String)
  /-- the multipart POST of `task` to `url`. -/
  | httpPost (url : String) (task : TaskData)
  /-- `os.Remove file`. -/
  | fsRemove (file : String)
  /-- `ethclient.Dial url` (blockchain health probe). -/
  | rpcDial (url : String)
  /-- IPFS `Version()` call against `endpoint`. -/
  | ipfsVersion (endpoint : String)
  /-- plain HTTP GET to `url` (runner health probe). -/
  | httpGet (url : String)
  /-- the proxy's outbound request (method, target URL). -/
  | outboundSend (method url : String)
deriving DecidableEq

/-- Oracle fixing the outcome of every fallible external call. -/
structure Env where
  /-- `docker image inspect` exits 0. -/
  inspectOk : Bool
  /-- `docker pull` exits 0. -/
  pullOk : Bool
  /-- `os.MkdirTemp` succeeds. -/
  mkdirOk : Bool
  /-- the directory `os.MkdirTemp` returns. -/
  tmpDir : String
  /-- `docker save` exits 0. -/
  saveOk : Bool
  /-- `os.ReadFile` on the archive succeeds. -/
  readOk : Bool
  /-- upload `client.Do`: `none` is a transport error, `some c` a response
  with status code `c`. -/
  uploadResp : Option Nat
  /-- blockchain probe (`Dial` + `BlockNumber`) succeeds. -/
  chainOk : Bool
  /-- IPFS `Version()` succeeds. -/
  ipfsOk : Bool
  /-- runner probe returns without error and with status 200. -/
  runnerOk : Bool
  /-- proxy `client.Do`: `none` is a transport error, `some c` a response
  with status code `c`. -/
  upstreamStatus : Option Nat
  /-- `err.Error()` text of the proxy transport error, when it fails. -/
  transportErrMsg : String

/-! ## Container image packager (`DockerService`) -/

/-- `DockerService.EnsureImageExists`: `docker image inspect`, falling back
to `docker pull`; returns whether the image is now present, plus the trace. -/
def EnsureImageExists (env : Env) (imageName : String) : Bool × List Event :=
  if env.inspectOk then (true, [.imageInspect imageName])
  else if env.pullOk then (true, [.imageInspect imageName, .imagePull imageName])
  else (false, [.imageInspect imageName, .imagePull imageName])

/-- `DockerService.SaveImage`: fresh temp directory, `docker save` into
`<tmpDir>/<image with / replaced by _>.tar` (`filepath.Join` of a
`MkdirTemp` result, which has no trailing separator); on save failure the
temp directory is removed wholesale and no file name is returned. -/
def SaveImage (env : Env) (imageName : String) : Option String × List Event :=
  if env.mkdirOk then
    let tarFileName := env.tmpDir ++ "/" ++ replaceSlashUnderscore imageName ++ ".tar"
    if env.saveOk then
      (some tarFileName, [.mkdirTemp env.tmpDir, .dockerSave imageName env.tmpDir tarFileName])
    else
      (none, [.mkdirTemp env.tmpDir, .dockerSave imageName env.tmpDir tarFileName,
              .fsRemoveAll env.tmpDir])
  else (none, [])

/-- Result of `DockerService.UploadImage`. -/
inductive UploadResult where
  /-- nil error: upload accepted. -/
  | ok
  /-- `os.ReadFile` failed. -/
  | readErr
  /-- `client.Do` failed. -/
  | transportErr
  /-- the runner answered with a status other than 200/201. -/
  | statusErr (code : Nat)
deriving DecidableEq

/-- `DockerService.UploadImage`: deferred `os.Remove(tarFile)` (hence the
removal is the last event on every path), read the archive, build the
multipart body (infallible on a `bytes.Buffer`), POST it, and accept
exactly the statuses 200 and 201. -/
def UploadImage (env : Env) (tarFile : String) (task : TaskData) (serverURL : String) :
    UploadResult × List Event :=
  let core : UploadResult × List Event :=
    if env.readOk then
      match env.uploadResp with
      | none => (.transportErr, [.fsRead tarFile, .httpPost serverURL task])
      | some code =>
        ((if code = 200 ∨ code = 201 then .ok else .statusErr code),
         [.fsRead tarFile, .httpPost serverURL task])
    else (.readErr, [.fsRead tarFile])
  (core.1, core.2 ++ [.fsRemove tarFile])

/-- `TaskHandler.processDockerImage`: ensure the image exists, archive it,
and upload the archive to `<runner base, trailing slash trimmed>/tasks`;
every failure aborts the pipeline after logging. -/
def processDockerImage (env : Env) (imageName : String) (task : TaskData)
    (runnerServerURL : String) : List Event :=
  let ens := EnsureImageExists env imageName
  if ens.1 then
    let sv := SaveImage env imageName
    match sv.1 with
    | none => ens.2 ++ sv.2
    | some tarFile =>
      let uploadURL := goTrimSuf runnerServerURL "/" ++ "/tasks"
      ens.2 ++ sv.2 ++ (UploadImage env tarFile task uploadURL).2
  else ens.2

/-! ## Task ingestion (`TaskHandler` + router JSON path) -/

/-- The `taskData` map of `ValidateAndProcessTask`. -/
def mkTaskData (idy : Identity) (req : TaskRequest) : TaskData :=
  ⟨req.title, req.description, req.image, req.command, idy.deviceID, idy.creatorAddr⟩

/-- `TaskHandler.ValidateAndProcessTask`: require non-empty title and
non-empty command, write the 202 acknowledgment, then (image present only)
spawn the background pipeline.  Returns the validation error, if any,
plus the trace. -/
def ValidateAndProcessTask (env : Env) (idy : Identity) (cfg : Config)
    (req : TaskRequest) : Option String × List Event :=
  if req.title = "" then (some "title is required", [])
  else if req.command = [] then (some "command is required", [])
  else
    let taskData := mkTaskData idy req
    let ack : List Event := [.respWrite ⟨202, .taskAck taskData⟩]
    if req.image ≠ "" then
      (none, ack ++ .spawnPipeline req.image ::
        processDockerImage env req.image taskData cfg.runnerServerURL)
    else (none, ack)

/-- `RequestRouter.handleJSONRequest`: decode the body (`none` models a
decode failure), run `ValidateAndProcessTask`, and turn its error into a
400 `types.WriteError` response. -/
def handleJSONRequest (env : Env) (idy : Identity) (cfg : Config)
    (decoded : Option TaskRequest) : List Event :=
  match decoded with
  | none => [.respWrite ⟨400, .errJSON 400 "Invalid request body"⟩]
  | some t =>
    match ValidateAndProcessTask env idy cfg t with
    | (some msg, evs) => evs ++ [.respWrite ⟨400, .errJSON 400 msg⟩]
    | (none, evs) => evs

/-! ## Health handlers (`internal/handlers/health.go`) -/

/-- `HealthHandler.checkBlockchainHealth`: unhealthy without a probe when no
RPC URL is configured; otherwise dial the RPC (one network probe covering
`Dial` + `BlockNumber`). -/
def checkBlockchainHealth (env : Env) (cfg : Config) : String × List Event :=
  if cfg.blockchainRPC = "" then ("unhealthy", [])
  else if env.chainOk then ("healthy", [.rpcDial cfg.blockchainRPC])
  else ("unhealthy", [.rpcDial cfg.blockchainRPC])

/-- `HealthHandler.checkIPFSHealth`: unhealthy without a probe when no
endpoint is configured; otherwise call `Version()` on the IPFS API. -/
def checkIPFSHealth (env : Env) (cfg : Config) : String × List Event :=
  if cfg.ipfsEndpoint = "" then ("unhealthy", [])
  else if env.ipfsOk then ("healthy", [.ipfsVersion cfg.ipfsEndpoint])
  else ("unhealthy", [.ipfsVersion cfg.ipfsEndpoint])

/-- `HealthHandler.checkRunnerHealth`: unhealthy without a probe when no
runner URL is configured; otherwise GET `<runner URL>/health` (the code
appends `/health` without trimming a trailing slash). -/
def checkRunnerHealth (env : Env) (cfg : Config) : String × List Event :=
  if cfg.runnerServerURL = "" then ("unhealthy", [])
  else if env.runnerOk then ("healthy", [.httpGet (cfg.runnerServerURL ++ "/health")])
  else ("unhealthy", [.httpGet (cfg.runnerServerURL ++ "/health")])

/-- `HealthHandler.HandleHealthCheck` (`GET /health`): report which services
are configured, no probe, always 200 "healthy". -/
def HandleHealthCheck (cfg : Config) : List Event :=
  let services :=
    (if cfg.blockchainRPC ≠ "" then [("blockchain", "configured")] else []) ++
    (if cfg.ipfsEndpoint ≠ "" then [("ipfs", "configured")] else []) ++
    (if cfg.runnerServerURL ≠ "" then [("runner", "configured")] else [])
  [.respWrite ⟨200, .healthJSON ⟨"healthy", services⟩⟩]

/-- `HealthHandler.HandleDetailedHealthCheck` (`GET /health/detailed`): probe
blockchain, IPFS and runner, report 200 with "healthy" or "degraded". -/
def HandleDetailedHealthCheck (env : Env) (cfg : Config) : List Event :=
  let b := checkBlockchainHealth env cfg
  let i := checkIPFSHealth env cfg
  let r := checkRunnerHealth env cfg
  let overall :=
    if b.1 = "healthy" ∧ i.1 = "healthy" ∧ r.1 = "healthy" then "healthy" else "degraded"
  b.2 ++ i.2 ++ r.2 ++ [.respWrite ⟨200, .detailedJSON overall b.1 i.1 r.1⟩]

/-- `HealthHandler.HandleReadinessCheck` (`GET /health/ready`): probe all
three services; 200 "ready" when all are healthy, else 503 "not_ready". -/
def HandleReadinessCheck (env : Env) (cfg : Config) : List Event :=
  let b := checkBlockchainHealth env cfg
  let i := checkIPFSHealth env cfg
  let r := checkRunnerHealth env cfg
  let ready := b.1 = "healthy" ∧ i.1 = "healthy" ∧ r.1 = "healthy"
  b.2 ++ i.2 ++ r.2 ++
    [.respWrite ⟨if ready then 200 else 503, .healthJSON ⟨if ready then "ready" else "not_ready", []⟩⟩]

/-- `HealthHandler.HandleLivenessCheck` (`GET /health/live`):
unconditionally 200 with status "alive", no probe. -/
def HandleLivenessCheck : List Event :=
  [.respWrite ⟨200, .healthJSON ⟨"alive", []⟩⟩]

/-! ## Reverse proxy (`internal/handlers/proxy.go`, `internal/types/http.go`) -/

/-- Go `http.Header` under canonical names. -/
abbrev HeaderMap := String → List String

/-- `http.NewRequest`'s initially empty header map. -/
def emptyHeader : HeaderMap := fun _ => []

/-- `types.CopyHeaders`: `Add` every value of `src` onto `dst`. -/
def CopyHeaders (dst src : HeaderMap) : HeaderMap := fun k => dst k ++ src k

/-- Go `http.Header.Set`: replace all values under `key` by the single
`value`. -/
def headerSet (h : HeaderMap) (key value : String) : HeaderMap :=
  fun k => if k = key then [value] else h k

/-- Go `http.Header.Get`: first value under `key`, or `""`. -/
def headerGet (h : HeaderMap) (key : String) : String := (h key).headD ""

/-- An inbound request as the router sees it.  `decodedTask` is the result
of `types.ReadJSONBody` on the body when the JSON path consumes it
(`none` models a decode failure). -/
structure HttpRequest where
  method : String
  path : String
  headers : HeaderMap
  decodedTask : Option TaskRequest

/-- `req.Header.Get("Content-Type")` contains `application/json`. -/
def hasJSONContentType (req : HttpRequest) : Bool :=
  goContains (headerGet req.headers "Content-Type") "application/json"

/-- Header assembly of `proxyHandler.forwardRequest`: copy every inbound
header onto the fresh outbound map, then `Set` the two identity headers. -/
def forwardHeaders (idy : Identity) (req : HttpRequest) : HeaderMap :=
  headerSet (headerSet (CopyHeaders emptyHeader req.headers) "X-Device-ID" idy.deviceID)
    "X-Creator-Address" idy.creatorAddr

/-- The outbound request the proxy builds. -/
structure OutboundRequest where
  method : String
  url : String
  headers : HeaderMap

/-- `proxyHandler.forwardRequest`, request-construction part: same method,
target `<server URL, trailing slash trimmed>/<path>` (the constructor
`newProxyHandler` trims the slash), headers via `forwardHeaders`. -/
def buildProxyRequest (idy : Identity) (cfg : Config) (req : HttpRequest)
    (path : String) : OutboundRequest :=
  ⟨req.method, goTrimSuf cfg.runnerServerURL "/" ++ "/" ++ path, forwardHeaders idy req⟩

/-- `proxyHandler.forwardRequest`: send the outbound request; on transport
failure return the wrapped error (the router then answers 502); on success
mirror the upstream status and stream the body back. -/
def forwardRequest (env : Env) (idy : Identity) (cfg : Config) (req : HttpRequest)
    (path : String) : Option String × List Event :=
  let pr := buildProxyRequest idy cfg req path
  match env.upstreamStatus with
  | none => (some ("error forwarding request: " ++ env.transportErrMsg),
             [.outboundSend pr.method pr.url])
  | some st => (none, [.outboundSend pr.method pr.url, .respWrite ⟨st, .upstream⟩])

/-! ## Request dispatcher (`RequestRouter`) -/

/-- The four health suffixes of `handleHealthEndpoints`. -/
inductive HealthKind where
  | basic
  | detailed
  | ready
  | live
deriving DecidableEq

/-- The path cases of `handleHealthEndpoints`'s `switch`. -/
def healthKind (p : String) : Option HealthKind :=
  if p = "health" then some .basic
  else if p = "health/detailed" then some .detailed
  else if p = "health/ready" then some .ready
  else if p = "health/live" then some .live
  else none

/-- `HandleRequest`'s path normalisation: strip a leading `/`, then a
leading `api/`. -/
def stripPath (p : String) : String := goTrimPre (goTrimPre p "/") "api/"

/-- Which of the three handlers a request reaches. -/
inductive Route where
  | health (k : HealthKind)
  | ingest
  | proxy
deriving DecidableEq

/-- The non-health arm of `HandleRequest`: POST with a JSON content type
goes to the JSON task path, everything else to the proxy. -/
def nonHealthRoute (req : HttpRequest) : Route :=
  if req.method = "POST" ∧ hasJSONContentType req = true then .ingest else .proxy

/-- `RequestRouter.HandleRequest`'s dispatch: health endpoints answer only
GETs (other methods fall through), then the POST/JSON test, else proxy. -/
def route (req : HttpRequest) : Route :=
  match healthKind (stripPath req.path) with
  | some k => if req.method = "GET" then .health k else nonHealthRoute req
  | none => nonHealthRoute req

/-- `RequestRouter.HandleRequest`: dispatch and run the chosen handler; a
`forwardRequest` error becomes a 502 `types.WriteError`. -/
def HandleRequest (env : Env) (idy : Identity) (cfg : Config) (req : HttpRequest) :
    List Event :=
  let path := stripPath req.path
  match route req with
  | .health .basic => HandleHealthCheck cfg
  | .health .detailed => HandleDetailedHealthCheck env cfg
  | .health .ready => HandleReadinessCheck env cfg
  | .health .live => HandleLivenessCheck
  | .ingest => handleJSONRequest env idy cfg req.decodedTask
  | .proxy =>
    match forwardRequest env idy cfg req path with
    | (some msg, evs) => evs ++ [.respWrite ⟨502, .errJSON 502 msg⟩]
    | (none, evs) => evs

/-! ## Derived observables -/

/-- The response carried by an event, if it is a response write. -/
def respOf : Event → Option Response
  | .respWrite r => some r
  | _ => none

/-- The responses written to the caller, in order. -/
def respWrites (tr : List Event) : List Response := tr.filterMap respOf

/-- Steps of the image packaging/upload pipeline. -/
def isPipelineStep : Event → Bool
  | .imageInspect _ | .imagePull _ | .mkdirTemp _ | .dockerSave _ _ _
  | .fsRemoveAll _ | .fsRead _ | .httpPost _ _ | .fsRemove _ => true
  | _ => false

/-- Events that reach the network (or a remote service). -/
def isNetworkEvent : Event → Bool
  | .imagePull _ | .httpPost _ _ | .rpcDial _ | .ipfsVersion _
  | .httpGet _ | .outboundSend _ _ => true
  | _ => false

/-- Archive files created by the trace (every `docker save` run, with its
directory). -/
def archiveCreates (tr : List Event) : List (String × String) :=
  tr.filterMap fun e => match e with
    | .dockerSave _ d f => some (d, f)
    | _ => none

/-- An event that removes the archive `f` living in directory `d`:
either `os.Remove f` or `os.RemoveAll d`. -/
def removesArchive (d f : String) : Event → Bool
  | .fsRemove g => g == f
  | .fsRemoveAll d' => d' == d
  | _ => false

/-- Every archive created in the trace has a removal later in the trace. -/
def allCreatedRemoved : List Event → Bool
  | [] => true
  | .dockerSave _ d f :: rest => rest.any (removesArchive d f) && allCreatedRemoved rest
  | _ :: rest => allCreatedRemoved rest

/-- Number of upload POST attempts in the trace. -/
def countUploadPosts (tr : List Event) : Nat :=
  (tr.filter fun e => match e with
    | .httpPost _ _ => true
    | _ => false).length

/-- The proxy's outbound send, as a predicate on events. -/
def isProxySend : Event → Bool
  | .outboundSend _ _ => true
  | _ => false

/-! ## Helper lemmas -/

theorem respWrites_append (a b : List Event) :
    respWrites (a ++ b) = respWrites a ++ respWrites b := by
  simp [respWrites, List.filterMap_append]

/-- The background pipeline never writes a response to the caller. -/
theorem pipeline_no_resp (env : Env) (img : String) (td : TaskData) (url : String) :
    respWrites (processDockerImage env img td url) = [] := by
  unfold processDockerImage EnsureImageExists SaveImage UploadImage
  cases h1 : env.inspectOk <;> cases h2 : env.pullOk <;> cases h3 : env.mkdirOk <;>
    cases h4 : env.saveOk <;> cases h5 : env.readOk <;> cases h6 : env.uploadResp <;>
    simp [respWrites, respOf]

/-- The background pipeline attempts the upload POST at most once. -/
theorem pipeline_posts_le_one (env : Env) (img : String) (td : TaskData) (url : String) :
    countUploadPosts (processDockerImage env img td url) ≤ 1 := by
  unfold processDockerImage EnsureImageExists SaveImage UploadImage
  cases h1 : env.inspectOk <;> cases h2 : env.pullOk <;> cases h3 : env.mkdirOk <;>
    cases h4 : env.saveOk <;> cases h5 : env.readOk <;> cases h6 : env.uploadResp <;>
    simp [countUploadPosts]

theorem checkBlockchain_shape (env : Env) (cfg : Config) :
    (checkBlockchainHealth env cfg).2 = [] ∨
      (checkBlockchainHealth env cfg).2 = [.rpcDial cfg.blockchainRPC] := by
  unfold checkBlockchainHealth
  split_ifs <;> simp

theorem checkIPFS_shape (env : Env) (cfg : Config) :
    (checkIPFSHealth env cfg).2 = [] ∨
      (checkIPFSHealth env cfg).2 = [.ipfsVersion cfg.ipfsEndpoint] := by
  unfold checkIPFSHealth
  split_ifs <;> simp

theorem checkRunner_shape (env : Env) (cfg : Config) :
    (checkRunnerHealth env cfg).2 = [] ∨
      (checkRunnerHealth env cfg).2 = [.httpGet (cfg.runnerServerURL ++ "/health")] := by
  unfold checkRunnerHealth
  split_ifs <;> simp

/-! ## Concrete fixtures for witnesses and counterexamples -/

/-- An environment where every external call succeeds. -/
def exEnv : Env :=
  ⟨true, true, true, "/tmp/docker-images-1", true, true, some 200, true, true, true,
   some 200, "connection refused"⟩

/-- An environment whose upstream runner is unreachable. -/
def exEnvDown : Env :=
  ⟨true, true, true, "/tmp/docker-images-1", true, true, none, false, false, false,
   none, "connection refused"⟩

def exIdy : Identity := ⟨"device-1", "0xabc"⟩

def exCfg : Config := ⟨"http://runner:8080", "http://rpc:8545", "http://ipfs:5001"⟩

/-- Inbound headers of a JSON task-creation request. -/
def exJSONHeaders : HeaderMap :=
  fun k => if k = "Content-Type" then ["application/json"] else []

/-- Inbound headers carrying caller-spoofed identity headers. -/
def exSpoofHeaders : HeaderMap :=
  fun k =>
    if k = "Authorization" then ["Bearer t"]
    else if k = "X-Device-ID" then ["evil1", "evil2"]
    else if k = "X-Creator-Address" then ["evil3"]
    else []

def exReqOther : HttpRequest := ⟨"GET", "/anything/else", fun _ => [], none⟩

def exReqSpoof : HttpRequest := ⟨"GET", "/models/1", exSpoofHeaders, none⟩

def exReqDetailed : HttpRequest := ⟨"GET", "/health/detailed", fun _ => [], none⟩

def exReqLive : HttpRequest := ⟨"GET", "/health/live", fun _ => [], none⟩

def exReqPostHealth : HttpRequest :=
  ⟨"POST", "/health", exJSONHeaders, some ⟨"", "", "", ["x"]⟩⟩

def exReqPutHealth : HttpRequest := ⟨"PUT", "/health", fun _ => [], none⟩

/-- A concrete canonical task record. -/
def exTd : TaskData := ⟨"t1", "", "lib/img", ["echo"], "device-1", "0xabc"⟩

/-- `pipeline_no_resp` restated on the unfolded `filterMap` form. -/
theorem pipeline_no_resp_fm (env : Env) (img : String) (td : TaskData) (url : String) :
    List.filterMap respOf (processDockerImage env img td url) = [] :=
  pipeline_no_resp env img td url

/-! ## Claims -/

/-- **C1, counterexample.** A decoded `TaskRequest` with non-empty title but
empty command (`title:"t1"`, `command:[]`) does not get the claimed single
202 acknowledgment: ingestion answers with a single 400
"command is required" response and writes no 202 at all. -/
theorem C1_counterexample :
    respWrites (handleJSONRequest exEnv exIdy exCfg (some ⟨"t1", "", "", []⟩)) =
      [⟨400, .errJSON 400 "command is required"⟩] ∧
    ∀ r ∈ respWrites (handleJSONRequest exEnv exIdy exCfg (some ⟨"t1", "", "", []⟩)),
      r.status ≠ 202 := by
  decide

/-- **C1, amended.** For every decoded `TaskRequest` with non-empty title
*and non-empty command*, ingestion produces exactly one response, with
status 202, whose body carries the request's title, description, image and
command unchanged together with the gateway's device id and creator
address. -/
theorem C1_task_ack (env : Env) (idy : Identity) (cfg : Config) (t : TaskRequest)
    (ht : t.title ≠ "") (hc : t.command ≠ []) :
    respWrites (handleJSONRequest env idy cfg (some t)) =
      [⟨202, .taskAck ⟨t.title, t.description, t.image, t.command,
                       idy.deviceID, idy.creatorAddr⟩⟩] := by
  by_cases hi : t.image = ""
  · simp [handleJSONRequest, ValidateAndProcessTask, ht, hc, hi, mkTaskData,
      respWrites, respOf]
  · simp [handleJSONRequest, ValidateAndProcessTask, ht, hc, hi, mkTaskData,
      respWrites, respOf, pipeline_no_resp_fm]

/-- **C1, witness.** The spec's scenario `{"title":"t1","command":["echo","hi"]}`
is acknowledged with exactly one 202 carrying the gateway identity. -/
theorem C1_witness :
    respWrites (handleJSONRequest exEnv exIdy exCfg
        (some ⟨"t1", "", "", ["echo", "hi"]⟩)) =
      [⟨202, .taskAck ⟨"t1", "", "", ["echo", "hi"], "device-1", "0xabc"⟩⟩] :=
  C1_task_ack exEnv exIdy exCfg ⟨"t1", "", "", ["echo", "hi"]⟩
    (by decide) (by decide)

/-- **C2.** For an ingested task with a non-empty image reference, the very
first event of the handler is the completed 202 response write, and every
packaging/upload step (image check, archive creation, read, POST, removal)
occurs strictly after it in the trace. -/
theorem C2_ack_precedes_pipeline (env : Env) (idy : Identity) (cfg : Config)
    (t : TaskRequest) (ht : t.title ≠ "") (hc : t.command ≠ []) (hi : t.image ≠ "") :
    (handleJSONRequest env idy cfg (some t)).head? =
      some (.respWrite ⟨202, .taskAck (mkTaskData idy t)⟩) ∧
    ∀ i e, (handleJSONRequest env idy cfg (some t)).get? i = some e →
      isPipelineStep e = true → 0 < i := by
  have htr : handleJSONRequest env idy cfg (some t) =
      .respWrite ⟨202, .taskAck (mkTaskData idy t)⟩ :: .spawnPipeline t.image ::
        processDockerImage env t.image (mkTaskData idy t) cfg.runnerServerURL := by
    simp [handleJSONRequest, ValidateAndProcessTask, ht, hc, hi]
  rw [htr]
  refine ⟨rfl, ?_⟩
  intro i e hget hpipe
  cases i with
  | zero =>
    injection hget with hget
    rw [← hget] at hpipe
    simp [isPipelineStep] at hpipe
  | succ n => exact Nat.succ_pos n

/-- **C2, witness.** Concrete instance: a valid request with image `"img"`
has the 202 write as its first event and all pipeline steps after it. -/
theorem C2_witness :
    (handleJSONRequest exEnv exIdy exCfg (some ⟨"t1", "d", "img", ["echo"]⟩)).head? =
      some (.respWrite ⟨202, .taskAck (mkTaskData exIdy ⟨"t1", "d", "img", ["echo"]⟩)⟩) ∧
    ∀ i e, (handleJSONRequest exEnv exIdy exCfg
        (some ⟨"t1", "d", "img", ["echo"]⟩)).get? i = some e →
      isPipelineStep e = true → 0 < i :=
  C2_ack_precedes_pipeline exEnv exIdy exCfg ⟨"t1", "d", "img", ["echo"]⟩
    (by decide) (by decide) (by decide)

/-- **C3.** A decoded `TaskRequest` with empty title yields exactly one
event: a 400 response write whose structured body is
`HTTPError 400 "title is required"` — no pipeline step, no spawn, no other
side effect — and that body's `encoding/json` wire form is
`'\x7b"status":400,"message":"title is required"\x7d'` (plus the encoder's
newline). -/
theorem C3_empty_title (env : Env) (idy : Identity) (cfg : Config)
    (t : TaskRequest) (ht : t.title = "") :
    handleJSONRequest env idy cfg (some t) =
      [.respWrite ⟨400, .errJSON 400 "title is required"⟩] ∧
    encodeHTTPError 400 "title is required" =
      "\x7b\"status\":400,\"message\":\"title is required\"\x7d\n" := by
  refine ⟨?_, by decide⟩
  simp [handleJSONRequest, ValidateAndProcessTask, ht]

/-- **C3, witness.** The spec's scenario `{"title":"","command":["x"]}`. -/
theorem C3_witness :
    handleJSONRequest exEnv exIdy exCfg (some ⟨"", "", "", ["x"]⟩) =
      [.respWrite ⟨400, .errJSON 400 "title is required"⟩] ∧
    encodeHTTPError 400 "title is required" =
      "\x7b\"status\":400,\"message\":\"title is required\"\x7d\n" :=
  C3_empty_title exEnv exIdy exCfg ⟨"", "", "", ["x"]⟩ (by decide)

/-- **C4.** On every run of the background pipeline — whatever the outcome
of the image check, archive creation, read, or upload — at most one
archive file is created, and every archive that was created has a removal
(`os.Remove` of the file or `os.RemoveAll` of its directory) later in the
trace. -/
theorem C4_archive_cleanup (env : Env) (img : String) (td : TaskData) (url : String) :
    (archiveCreates (processDockerImage env img td url)).length ≤ 1 ∧
    allCreatedRemoved (processDockerImage env img td url) = true := by
  unfold processDockerImage EnsureImageExists SaveImage UploadImage
  cases h1 : env.inspectOk <;> cases h2 : env.pullOk <;> cases h3 : env.mkdirOk <;>
    cases h4 : env.saveOk <;> cases h5 : env.readOk <;> cases h6 : env.uploadResp <;>
    simp [archiveCreates, allCreatedRemoved, removesArchive]

/-- **C4, witness.** Concrete successful run: one archive, removed. -/
theorem C4_witness :
    (archiveCreates (processDockerImage exEnv "lib/img" exTd "http://runner:8080/")).length ≤ 1 ∧
    allCreatedRemoved (processDockerImage exEnv "lib/img" exTd "http://runner:8080/") = true :=
  C4_archive_cleanup exEnv "lib/img" exTd "http://runner:8080/"

/-- **C5.** For a request that is neither POST-with-JSON nor on a health
path, the gateway's first act is the outbound send with the same method to
the runner base URL joined with the prefix-stripped path, and the caller
gets exactly one response: the upstream's own status when the transport
succeeds, 502 when the send fails. -/
theorem C5_proxy_status (env : Env) (idy : Identity) (cfg : Config) (req : HttpRequest)
    (hnj : ¬(req.method = "POST" ∧ hasJSONContentType req = true))
    (hnh : healthKind (stripPath req.path) = none) :
    (HandleRequest env idy cfg req).head? =
      some (.outboundSend req.method
        (goTrimSuf cfg.runnerServerURL "/" ++ "/" ++ stripPath req.path)) ∧
    (∀ st, env.upstreamStatus = some st →
      respWrites (HandleRequest env idy cfg req) = [⟨st, .upstream⟩]) ∧
    (env.upstreamStatus = none →
      respWrites (HandleRequest env idy cfg req) =
        [⟨502, .errJSON 502 ("error forwarding request: " ++ env.transportErrMsg)⟩]) := by
  have hroute : route req = .proxy := by
    simp [route, hnh, nonHealthRoute, hnj]
  cases hs : env.upstreamStatus with
  | none =>
    have htr : HandleRequest env idy cfg req =
        [.outboundSend req.method
           (goTrimSuf cfg.runnerServerURL "/" ++ "/" ++ stripPath req.path),
         .respWrite ⟨502, .errJSON 502
           ("error forwarding request: " ++ env.transportErrMsg)⟩] := by
      simp [HandleRequest, hroute, forwardRequest, buildProxyRequest, hs]
    rw [htr]
    refine ⟨rfl, ?_, ?_⟩
    · intro st hst
      exact Option.noConfusion hst
    · intro _
      simp [respWrites, respOf]
  | some st =>
    have htr : HandleRequest env idy cfg req =
        [.outboundSend req.method
           (goTrimSuf cfg.runnerServerURL "/" ++ "/" ++ stripPath req.path),
         .respWrite ⟨st, .upstream⟩] := by
      simp [HandleRequest, hroute, forwardRequest, buildProxyRequest, hs]
    rw [htr]
    refine ⟨rfl, ?_, ?_⟩
    · intro st' hst'
      injection hst' with h
      rw [← h]
      simp [respWrites, respOf]
    · intro h
      exact Option.noConfusion h

/-- **C5, witness.** The spec's scenario: `GET /anything/else` with the
upstream down yields one outbound attempt and a single 502. -/
theorem C5_witness :
    (HandleRequest exEnvDown exIdy exCfg exReqOther).head? =
      some (.outboundSend exReqOther.method
        (goTrimSuf exCfg.runnerServerURL "/" ++ "/" ++ stripPath exReqOther.path)) ∧
    (∀ st, exEnvDown.upstreamStatus = some st →
      respWrites (HandleRequest exEnvDown exIdy exCfg exReqOther) = [⟨st, .upstream⟩]) ∧
    (exEnvDown.upstreamStatus = none →
      respWrites (HandleRequest exEnvDown exIdy exCfg exReqOther) =
        [⟨502, .errJSON 502
          ("error forwarding request: " ++ exEnvDown.transportErrMsg)⟩]) :=
  C5_proxy_status exEnvDown exIdy exCfg exReqOther (by decide) (by decide)

/-- **C6.** On the outbound request the proxy builds, whatever identity
headers the caller supplied (however many values), there is exactly one
`X-Device-ID` value — the gateway's device id — and exactly one
`X-Creator-Address` value — the gateway's creator address — and every
other header name keeps exactly its inbound values. -/
theorem C6_identity_header_override (idy : Identity) (cfg : Config)
    (req : HttpRequest) (path : String) :
    (buildProxyRequest idy cfg req path).headers "X-Device-ID" = [idy.deviceID] ∧
    (buildProxyRequest idy cfg req path).headers "X-Creator-Address" = [idy.creatorAddr] ∧
    ∀ k, k ≠ "X-Device-ID" → k ≠ "X-Creator-Address" →
      (buildProxyRequest idy cfg req path).headers k = req.headers k := by
  refine ⟨?_, ?_, ?_⟩
  · simp [buildProxyRequest, forwardHeaders, headerSet, CopyHeaders, emptyHeader]
  · simp [buildProxyRequest, forwardHeaders, headerSet, CopyHeaders, emptyHeader]
  · intro k hk1 hk2
    simp [buildProxyRequest, forwardHeaders, headerSet, CopyHeaders, emptyHeader, hk1, hk2]

/-- **C6, witness.** A caller spoofing `X-Device-ID` (two values) and
`X-Creator-Address` still gets the gateway identity (one value each) on
the outbound leg, while `Authorization` passes through unchanged. -/
theorem C6_witness :
    (buildProxyRequest exIdy exCfg exReqSpoof "models/1").headers "X-Device-ID" =
      ["device-1"] ∧
    (buildProxyRequest exIdy exCfg exReqSpoof "models/1").headers "X-Creator-Address" =
      ["0xabc"] ∧
    (buildProxyRequest exIdy exCfg exReqSpoof "models/1").headers "Authorization" =
      ["Bearer t"] :=
  ⟨(C6_identity_header_override exIdy exCfg exReqSpoof "models/1").1,
   (C6_identity_header_override exIdy exCfg exReqSpoof "models/1").2.1,
   (C6_identity_header_override exIdy exCfg exReqSpoof "models/1").2.2
     "Authorization" (by decide) (by decide)⟩

/-- **C7, counterexample.** `GET /health/detailed` is dispatched to the
health responder, yet its trace performs an HTTP GET against the upstream
runner's `/health` endpoint — a network call to a remote service,
contradicting the claim that every health GET is answered with no network
call. -/
theorem C7_counterexample :
    route exReqDetailed = .health .detailed ∧
    Event.httpGet "http://runner:8080/health" ∈
      HandleRequest exEnv exIdy exCfg exReqDetailed ∧
    isNetworkEvent (.httpGet "http://runner:8080/health") = true := by
  decide

/-- **C7, amended.** Every GET to a health path is answered by the gateway
itself — its trace never contains the proxy's outbound send — and the
plain `/health` and `/health/live` endpoints make no network call at all,
with `/health/live` returning exactly one 200 response whose status field
is "alive"; `/health/detailed` and `/health/ready`, however, may probe the
blockchain RPC, the IPFS API and the runner's health endpoint. -/
theorem C7_health_local (env : Env) (idy : Identity) (cfg : Config)
    (req : HttpRequest) (k : HealthKind) (hroute : route req = .health k) :
    (HandleRequest env idy cfg req).all (fun e => !isProxySend e) = true ∧
    ((k = .basic ∨ k = .live) →
      (HandleRequest env idy cfg req).all (fun e => !isNetworkEvent e) = true) ∧
    (k = .live → HandleRequest env idy cfg req =
      [.respWrite ⟨200, .healthJSON ⟨"alive", []⟩⟩]) := by
  cases k with
  | basic =>
    refine ⟨?_, fun _ => ?_, fun h => by simp at h⟩ <;>
      simp [HandleRequest, hroute, HandleHealthCheck, isProxySend, isNetworkEvent]
  | live =>
    refine ⟨?_, fun _ => ?_, fun _ => ?_⟩ <;>
      simp [HandleRequest, hroute, HandleLivenessCheck, isProxySend, isNetworkEvent]
  | detailed =>
    refine ⟨?_, ?_, ?_⟩
    · rcases checkBlockchain_shape env cfg with hb | hb <;>
        rcases checkIPFS_shape env cfg with hi | hi <;>
          rcases checkRunner_shape env cfg with hr | hr <;>
            simp [HandleRequest, hroute, HandleDetailedHealthCheck, hb, hi, hr, isProxySend]
    · intro h
      rcases h with h | h <;> simp at h
    · intro h
      simp at h
  | ready =>
    refine ⟨?_, ?_, ?_⟩
    · rcases checkBlockchain_shape env cfg with hb | hb <;>
        rcases checkIPFS_shape env cfg with hi | hi <;>
          rcases checkRunner_shape env cfg with hr | hr <;>
            simp [HandleRequest, hroute, HandleReadinessCheck, hb, hi, hr, isProxySend]
    · intro h
      rcases h with h | h <;> simp at h
    · intro h
      simp at h

/-- **C7, witness.** The spec's scenario `GET /health/live`: answered
locally, no network call, one 200 response with status "alive". -/
theorem C7_witness :
    (HandleRequest exEnv exIdy exCfg exReqLive).all (fun e => !isProxySend e) = true ∧
    ((HealthKind.live = .basic ∨ HealthKind.live = .live) →
      (HandleRequest exEnv exIdy exCfg exReqLive).all (fun e => !isNetworkEvent e) = true) ∧
    (HealthKind.live = .live → HandleRequest exEnv exIdy exCfg exReqLive =
      [.respWrite ⟨200, .healthJSON ⟨"alive", []⟩⟩]) :=
  C7_health_local exEnv exIdy exCfg exReqLive .live (by decide)

/-- **C8.** The upload step returns no error exactly when the archive could
be read (so the multipart POST is actually made) and the POST completes
with status 200 or 201; on every run of the pipeline the POST is attempted
at most once (no retry) and the pipeline writes no response the caller
could observe or query. -/
theorem C8_upload_success (env : Env) (img : String) (td : TaskData)
    (url tarFile : String) :
    ((UploadImage env tarFile td url).1 = .ok ↔
      env.readOk = true ∧ ∃ c, env.uploadResp = some c ∧ (c = 200 ∨ c = 201)) ∧
    countUploadPosts (processDockerImage env img td url) ≤ 1 ∧
    respWrites (processDockerImage env img td url) = [] := by
  refine ⟨?_, pipeline_posts_le_one env img td url, pipeline_no_resp env img td url⟩
  cases h5 : env.readOk with
  | false => simp [UploadImage, h5]
  | true =>
    cases h6 : env.uploadResp with
    | none => simp [UploadImage, h5, h6]
    | some c =>
      by_cases hc : c = 200 ∨ c = 201 <;> simp [UploadImage, h5, h6, hc]

/-- **C8, witness.** Concrete instance in the all-succeeding environment. -/
theorem C8_witness :
    ((UploadImage exEnv "/tmp/docker-images-1/lib_img.tar" exTd "http://runner:8080/tasks").1 = .ok ↔
      exEnv.readOk = true ∧ ∃ c, exEnv.uploadResp = some c ∧ (c = 200 ∨ c = 201)) ∧
    countUploadPosts (processDockerImage exEnv "lib/img" exTd "http://runner:8080") ≤ 1 ∧
    respWrites (processDockerImage exEnv "lib/img" exTd "http://runner:8080") = [] :=
  C8_upload_success exEnv "lib/img" exTd "http://runner:8080" "/tmp/docker-images-1/lib_img.tar"

/-- **C9.** The dispatcher is a total function into exactly one of the three
handlers: a request goes to ingestion iff it is a POST whose content type
contains `application/json`; to a health responder iff it is a GET on one
of the four health paths; and to the proxy iff it is neither. -/
theorem C9_route_partition (req : HttpRequest) :
    (route req = .ingest ↔ req.method = "POST" ∧ hasJSONContentType req = true) ∧
    (∀ k, route req = .health k ↔
      req.method = "GET" ∧ healthKind (stripPath req.path) = some k) ∧
    (route req = .proxy ↔
      ¬(req.method = "POST" ∧ hasJSONContentType req = true) ∧
      ¬(req.method = "GET" ∧ (healthKind (stripPath req.path)).isSome)) := by
  cases hh : healthKind (stripPath req.path) with
  | none =>
    by_cases hp : req.method = "POST" ∧ hasJSONContentType req = true
    · simp [route, hh, nonHealthRoute, hp]
    · simp [route, hh, nonHealthRoute, hp]
  | some k0 =>
    by_cases hm : req.method = "GET"
    · simp [route, hh, hm]
    · by_cases hp : req.method = "POST" ∧ hasJSONContentType req = true
      · simp [route, hh, hm, nonHealthRoute, hp]
      · simp [route, hh, hm, nonHealthRoute, hp]

/-- **C9, witness.** The characterization at the concrete request
`POST /health` with JSON content type (routed to ingestion). -/
theorem C9_witness :
    (route exReqPostHealth = .ingest ↔
      exReqPostHealth.method = "POST" ∧ hasJSONContentType exReqPostHealth = true) ∧
    (∀ k, route exReqPostHealth = .health k ↔
      exReqPostHealth.method = "GET" ∧
        healthKind (stripPath exReqPostHealth.path) = some k) ∧
    (route exReqPostHealth = .proxy ↔
      ¬(exReqPostHealth.method = "POST" ∧ hasJSONContentType exReqPostHealth = true) ∧
      ¬(exReqPostHealth.method = "GET" ∧
          (healthKind (stripPath exReqPostHealth.path)).isSome)) :=
  C9_route_partition exReqPostHealth

/-- **C10.** Health paths are local only for GET: a POST with JSON content
type on a health path is consumed by ingestion (validated as a
`TaskRequest`, yielding the 400 for an empty title and the 202 for a valid
one), and a non-GET request on a health path that is not POST-with-JSON is
forwarded to the upstream runner. -/
theorem C10_health_only_get (env : Env) (idy : Identity) (cfg : Config)
    (req : HttpRequest) (k : HealthKind)
    (hh : healthKind (stripPath req.path) = some k) :
    (req.method = "POST" → hasJSONContentType req = true →
      route req = .ingest ∧
      (∀ t, req.decodedTask = some t → t.title = "" →
        HandleRequest env idy cfg req =
          [.respWrite ⟨400, .errJSON 400 "title is required"⟩]) ∧
      (∀ t, req.decodedTask = some t → t.title ≠ "" → t.command ≠ [] →
        (respWrites (HandleRequest env idy cfg req)).map Response.status = [202])) ∧
    (req.method ≠ "GET" → ¬(req.method = "POST" ∧ hasJSONContentType req = true) →
      route req = .proxy) := by
  constructor
  · intro hm hj
    have hroute : route req = .ingest := by
      simp [route, hh, hm, nonHealthRoute, hj]
    refine ⟨hroute, ?_, ?_⟩
    · intro t hdec ht
      simp [HandleRequest, hroute, hdec, handleJSONRequest, ValidateAndProcessTask, ht]
    · intro t hdec ht hc
      by_cases hi : t.image = "" <;>
        simp [HandleRequest, hroute, hdec, handleJSONRequest, ValidateAndProcessTask,
          ht, hc, hi, respWrites, respOf, pipeline_no_resp_fm]
  · intro hm hp
    simp [route, hh, hm, nonHealthRoute, hp]

/-- **C10, witness.** `POST /health` with a JSON body whose title is empty
is consumed by ingestion and answered 400 "title is required";
`PUT /health` is routed to the proxy. -/
theorem C10_witness :
    (route exReqPostHealth = .ingest ∧
     HandleRequest exEnv exIdy exCfg exReqPostHealth =
       [.respWrite ⟨400, .errJSON 400 "title is required"⟩]) ∧
    route exReqPutHealth = .proxy :=
  ⟨⟨((C10_health_only_get exEnv exIdy exCfg exReqPostHealth .basic
        (by decide)).1 (by decide) (by decide)).1,
    ((C10_health_only_get exEnv exIdy exCfg exReqPostHealth .basic
        (by decide)).1 (by decide) (by decide)).2.1 ⟨"", "", "", ["x"]⟩ rfl rfl⟩,
   (C10_health_only_get exEnv exIdy exCfg exReqPutHealth .basic
      (by decide)).2 (by decide) (by decide)⟩

end ParityClient
